import Mathlib

/-!
Verification development for the PayPal contact-module backend (server.js).

The order-payload builder (`createOrder`'s `collect` construction) is embedded
as the pure function `buildCollect`; the two Express route handlers are
embedded as functions parametrised over the external payment-processor client
(`ordersController.createOrder` / `ordersController.captureOrder`) and over
`JSON.parse`, both modelled as `Except`-valued functions since they may throw.
A JavaScript contact-preference value that may be a string or `undefined`
(the request body's `pref` field may be absent) is modelled as `Option String`
with `none` standing for `undefined`.
-/

namespace PayPalContactModule

/-- Monetary amount as sent to the processor: ISO currency code and decimal
string value (e.g. `"GBP"`, `"100.00"`). -/
structure Amount where
  currencyCode : String
  value : String
deriving Repr, DecidableEq

/-- Breakdown of a purchase-unit amount; only `itemTotal` is populated. -/
structure Breakdown where
  itemTotal : Amount
deriving Repr, DecidableEq

/-- Top-level purchase-unit amount together with its breakdown. -/
structure AmountWithBreakdown where
  currencyCode : String
  value : String
  breakdown : Breakdown
deriving Repr, DecidableEq

/-- A line item of the order (name, unit amount, quantity, description, SKU). -/
structure Item where
  name : String
  unitAmount : Amount
  quantity : String
  description : String
  sku : String
deriving Repr, DecidableEq

/-- Phone number carried in the shipping block. -/
structure PhoneNumber where
  countryCode : String
  nationalNumber : String
deriving Repr, DecidableEq

/-- Recipient name carried in the shipping block. -/
structure FullName where
  full_name : String
deriving Repr, DecidableEq

/-- One shipping option: identifier, type (`"SHIPPING"` or `"PICKUP"`),
display label, selected flag and price amount. -/
structure ShippingOption where
  id : String
  type : String
  label : String
  selected : Bool
  amount : Amount
deriving Repr, DecidableEq

/-- Shipping block: phone number, recipient name and the option set. -/
structure Shipping where
  phoneNumber : PhoneNumber
  name : FullName
  options : List ShippingOption
deriving Repr, DecidableEq

/-- One purchase unit; the shipping block is optional (spread in only when
`includeShipping` holds in the source). -/
structure PurchaseUnit where
  amount : AmountWithBreakdown
  items : List Item
  shipping : Option Shipping
deriving Repr, DecidableEq

/-- Payment-source experience block: user action and contact preference. -/
structure ExperienceContext where
  userAction : String
  contactPreference : Option String
deriving Repr, DecidableEq

/-- The `paypal` wrapper inside `paymentSource`. -/
structure PaypalSource where
  experienceContext : ExperienceContext
deriving Repr, DecidableEq

/-- The `paymentSource` block of the order body. -/
structure PaymentSource where
  paypal : PaypalSource
deriving Repr, DecidableEq

/-- The order-creation request body (`collect.body` in the source). -/
structure OrderBody where
  intent : String
  purchaseUnits : List PurchaseUnit
  paymentSource : PaymentSource
deriving Repr, DecidableEq

/-- The full argument passed to the processor's create-order call: request
body plus the `prefer` header value. -/
structure OrderCollect where
  body : OrderBody
  prefer : String
deriving Repr, DecidableEq

/-- SDK enum constant `PaypalExperienceUserAction.PayNow` (value `"PAY_NOW"`). -/
def PaypalExperienceUserAction.PayNow : String := "PAY_NOW"

/-- Source line 68: `const includeShipping = contactPreference !== "NO_CONTACT_INFO"`.
An absent (`undefined`) preference is `none` and also differs from the string. -/
def includeShippingFor (contactPreference : Option String) : Bool :=
  contactPreference != some "NO_CONTACT_INFO"

/-- The hard-coded shipping block of `createOrder` (source lines 100-160):
fixed phone number, fixed recipient name, and the static four-entry option
set with the `PICKUP0` entry pre-selected. -/
def shippingBlock : Shipping :=
  { phoneNumber := { countryCode := "44", nationalNumber := "4081111111" }
    name := { full_name := "Hans Muller" }
    options :=
      [ { id := "SHIP1", type := "SHIPPING", label := "Free Shipping",
          selected := false, amount := { currencyCode := "GBP", value := "0.00" } },
        { id := "SHIP2", type := "SHIPPING", label := "2-Day Shipping",
          selected := false, amount := { currencyCode := "GBP", value := "4.00" } },
        { id := "PICKUP0", type := "PICKUP", label := "Collect from Glasgow Store",
          selected := true, amount := { currencyCode := "GBP", value := "0.00" } },
        { id := "PICKUP1", type := "PICKUP", label := "Collect from London Store",
          selected := false, amount := { currencyCode := "GBP", value := "0.00" } } ] }

/-- The `collect` value assembled by `createOrder` (source lines 70-176) from
the caller's cart and contact preference. The cart is accepted but unused
(only logged in the source), so the definition is polymorphic in its type. -/
def buildCollect {α : Type} (cart : α) (contactPreference : Option String) :
    OrderCollect :=
  { body :=
      { intent := "CAPTURE"
        purchaseUnits :=
          [ { amount :=
                { currencyCode := "GBP", value := "100.00"
                  breakdown :=
                    { itemTotal := { currencyCode := "GBP", value := "100.00" } } }
              items :=
                [ { name := "T-Shirt"
                    unitAmount := { currencyCode := "GBP", value := "100.00" }
                    quantity := "1"
                    description := "Super Fresh Shirt"
                    sku := "sku01" } ]
              shipping :=
                if includeShippingFor contactPreference then some shippingBlock
                else none } ]
        paymentSource :=
          { paypal :=
              { experienceContext :=
                  { userAction := PaypalExperienceUserAction.PayNow
                    contactPreference := contactPreference } } } }
    prefer := "return=minimal" }

/-- Response of a successful processor call: raw JSON body string and HTTP
status code. -/
structure ProcResponse where
  body : String
  statusCode : Nat
deriving Repr, DecidableEq

/-- An exception thrown during a processor call: either a recognized
processor-API error (`ApiError`, carrying its own message) or any other
thrown error. -/
inductive ProcError where
  | api (message : String)
  | other (message : String)
deriving Repr, DecidableEq

/-- Argument of the processor's capture call: order id and prefer header. -/
structure CaptureInput where
  id : String
  prefer : String
deriving Repr, DecidableEq

/-- Return value of the source's `createOrder` helper. -/
structure CreateOrderResult (J : Type) where
  jsonResponse : J
  httpStatusCode : Nat
deriving Repr, DecidableEq

/-- Body of an HTTP reply sent by a route handler: either a relayed parsed
JSON value or an error object `\x7b "error": msg \x7d`. -/
inductive ResponseBody (J : Type) where
  | json (j : J)
  | errorMsg (msg : String)
deriving Repr, DecidableEq

/-- An HTTP reply sent by a route handler: status code and body. -/
structure HttpReply (J : Type) where
  status : Nat
  body : ResponseBody J
deriving Repr, DecidableEq

/-- The source's `createOrder` helper (lines 66-184): builds `collect`,
submits it to the processor, parses the response body and returns the parsed
JSON with the status code. The processor call and `JSON.parse` are external
and may throw, hence the `Except` parameters and result. -/
def createOrder {α J : Type}
    (processorCreateOrder : OrderCollect → Except ProcError ProcResponse)
    (jsonParse : String → Except ProcError J)
    (cart : α) (contactPreference : Option String) :
    Except ProcError (CreateOrderResult J) := do
  let collect := buildCollect cart contactPreference
  let r ← processorCreateOrder collect
  let j ← jsonParse r.body
  pure { jsonResponse := j, httpStatusCode := r.statusCode }

/-- The `POST /api/orders` route handler (lines 192-206): on success relays
the processor's status code and parsed body; on any exception responds 500
with the generic error body. -/
def handleCreateOrder {α J : Type}
    (processorCreateOrder : OrderCollect → Except ProcError ProcResponse)
    (jsonParse : String → Except ProcError J)
    (cart : α) (pref : Option String) : HttpReply J :=
  match createOrder processorCreateOrder jsonParse cart pref with
  | .ok r => { status := r.httpStatusCode, body := .json r.jsonResponse }
  | .error _ => { status := 500, body := .errorMsg "Failed to create order." }

/-- The capture pipeline inside the `try` of the capture route (lines 213-218):
call the processor with the order id and minimal-return preference, then parse
the body. -/
def captureOrder {J : Type}
    (processorCaptureOrder : CaptureInput → Except ProcError ProcResponse)
    (jsonParse : String → Except ProcError J)
    (orderID : String) : Except ProcError (Nat × J) := do
  let r ← processorCaptureOrder { id := orderID, prefer := "return=minimal" }
  let j ← jsonParse r.body
  pure (r.statusCode, j)

/-- Source line 220: `err instanceof ApiError ? err.message : "Failed to capture order."`. -/
def captureFailureMessage (err : ProcError) : String :=
  match err with
  | .api message => message
  | .other _ => "Failed to capture order."

/-- The `POST /api/orders/:orderID/capture` route handler (lines 211-224):
on success relays status code and parsed body; on an exception responds 500
with the `ApiError` message when recognized, else the generic message. -/
def handleCaptureOrder {J : Type}
    (processorCaptureOrder : CaptureInput → Except ProcError ProcResponse)
    (jsonParse : String → Except ProcError J)
    (orderID : String) : HttpReply J :=
  match captureOrder processorCaptureOrder jsonParse orderID with
  | .ok (s, j) => { status := s, body := .json j }
  | .error e => { status := 500, body := .errorMsg (captureFailureMessage e) }

/-- C1: for every contactPreference not equal to `"NO_CONTACT_INFO"` (and any
cart), the built OrderRequest's single purchase unit carries a shipping block
whose options list has exactly 4 entries, of which exactly one — the entry
with id `"PICKUP0"` — has `selected = true`, the other 3 having
`selected = false`. -/
theorem shipping_always_four_options_pickup0_selected {α : Type} (cart : α)
    (pref : Option String) (h : pref ≠ some "NO_CONTACT_INFO") :
    (buildCollect cart pref).body.purchaseUnits.map
        (fun pu => pu.shipping.map
          (fun sh =>
            (sh.options.length,
             (sh.options.filter (fun o => o.selected)).map (fun o => o.id),
             (sh.options.filter (fun o => !o.selected)).length)))
      = [some (4, ["PICKUP0"], 3)] := by
  have hb : includeShippingFor pref = true := by
    simp [includeShippingFor, h]
  simp [buildCollect, hb, shippingBlock]

/-- Witness for C1 at the concrete input of Scenario B: empty cart and
preference `"RETAIN_CONTACT_INFO"`. -/
theorem shipping_always_four_options_pickup0_selected_witness :
    (buildCollect ([] : List String) (some "RETAIN_CONTACT_INFO")).body.purchaseUnits.map
        (fun pu => pu.shipping.map
          (fun sh =>
            (sh.options.length,
             (sh.options.filter (fun o => o.selected)).map (fun o => o.id),
             (sh.options.filter (fun o => !o.selected)).length)))
      = [some (4, ["PICKUP0"], 3)] :=
  shipping_always_four_options_pickup0_selected ([] : List String)
    (some "RETAIN_CONTACT_INFO") (by decide)

/-- C2: for contactPreference `"NO_CONTACT_INFO"` (and any cart), the built
OrderRequest's single purchase unit has no shipping block at all. -/
theorem no_shipping_for_no_contact_info {α : Type} (cart : α) :
    (buildCollect cart (some "NO_CONTACT_INFO")).body.purchaseUnits.map
        (fun pu => pu.shipping) = [none] := by
  simp [buildCollect, includeShippingFor]

/-- C3: for every input, the experience block carries the fixed pay-now user
action (`"PAY_NOW"`) and exactly the caller-supplied contactPreference. -/
theorem experience_context_pay_now_and_forwarded_pref {α : Type} (cart : α)
    (pref : Option String) :
    (buildCollect cart pref).body.paymentSource.paypal.experienceContext.userAction
        = "PAY_NOW" ∧
    (buildCollect cart pref).body.paymentSource.paypal.experienceContext.contactPreference
        = pref :=
  ⟨rfl, rfl⟩

/-- C4: in every built OrderRequest, the breakdown's `itemTotal.value` equals
the top-level `amount.value` and both carry the same currency code. -/
theorem item_total_matches_amount {α : Type} (cart : α) (pref : Option String) :
    ((buildCollect cart pref).body.purchaseUnits.all
        (fun pu =>
          pu.amount.breakdown.itemTotal.value == pu.amount.value &&
          pu.amount.breakdown.itemTotal.currencyCode == pu.amount.currencyCode))
      = true := by
  simp [buildCollect]

/-- C5: whenever the create-order pipeline (payload construction, processor
call or response parsing) throws, the create-order handler responds HTTP 500
with exactly the body `\x7b "error": "Failed to create order." \x7d`,
independent of the underlying error. -/
theorem create_order_failure_generic_500 {α J : Type}
    (processorCreateOrder : OrderCollect → Except ProcError ProcResponse)
    (jsonParse : String → Except ProcError J)
    (cart : α) (pref : Option String) (e : ProcError)
    (h : createOrder processorCreateOrder jsonParse cart pref = .error e) :
    handleCreateOrder processorCreateOrder jsonParse cart pref =
      { status := 500, body := .errorMsg "Failed to create order." } := by
  unfold handleCreateOrder
  rw [h]

/-- A processor stub whose create call always throws a non-API error. -/
def failingProcessorCreate : OrderCollect → Except ProcError ProcResponse :=
  fun _ => .error (.other "network down")

/-- A parse stub that returns the raw string unchanged. -/
def trivialParse : String → Except ProcError String :=
  fun s => .ok s

/-- Witness for C5: with a throwing processor stub, the handler replies 500
with the generic body (Scenario D). -/
theorem create_order_failure_generic_500_witness :
    handleCreateOrder failingProcessorCreate trivialParse ([] : List String) none =
      { status := 500, body := .errorMsg "Failed to create order." } :=
  create_order_failure_generic_500 failingProcessorCreate trivialParse
    ([] : List String) none (.other "network down") rfl

/-- C6: whenever the processor's capture call throws, the capture handler
responds HTTP 500; the error body carries the thrown error's own message
exactly when it is a recognized `ApiError`, otherwise the generic message
`"Failed to capture order."`. -/
theorem capture_failure_message_policy {J : Type}
    (processorCaptureOrder : CaptureInput → Except ProcError ProcResponse)
    (jsonParse : String → Except ProcError J)
    (orderID : String) (e : ProcError)
    (h : processorCaptureOrder { id := orderID, prefer := "return=minimal" }
          = .error e) :
    (handleCaptureOrder processorCaptureOrder jsonParse orderID).status = 500 ∧
    (∀ m, e = .api m →
      (handleCaptureOrder processorCaptureOrder jsonParse orderID).body
        = .errorMsg m) ∧
    ((∀ m, e ≠ .api m) →
      (handleCaptureOrder processorCaptureOrder jsonParse orderID).body
        = .errorMsg "Failed to capture order.") := by
  have hc : captureOrder processorCaptureOrder jsonParse orderID = .error e := by
    unfold captureOrder
    rw [h]
    rfl
  unfold handleCaptureOrder
  rw [hc]
  cases e with
  | api m =>
      refine ⟨rfl, ?_, ?_⟩
      · intro m2 hm
        injection hm with hm2
        subst hm2
        rfl
      · intro hno
        exact absurd rfl (hno m)
  | other m =>
      refine ⟨rfl, ?_, ?_⟩
      · intro m2 hm
        exact ProcError.noConfusion hm
      · intro _
        rfl

/-- A processor stub whose capture call throws an `ApiError` with the message
of Scenario E. -/
def capturingProcessorApiFailure : CaptureInput → Except ProcError ProcResponse :=
  fun _ => .error (.api "Order already captured")

/-- Witness for C6 (Scenario E): a capture call throwing an `ApiError` with
message "Order already captured" yields a 500 reply carrying that message. -/
theorem capture_failure_message_policy_witness :
    (handleCaptureOrder capturingProcessorApiFailure trivialParse "O-1").status = 500 ∧
    (handleCaptureOrder capturingProcessorApiFailure trivialParse "O-1").body
      = .errorMsg "Order already captured" :=
  ⟨(capture_failure_message_policy capturingProcessorApiFailure trivialParse "O-1"
      (.api "Order already captured") rfl).1,
   (capture_failure_message_policy capturingProcessorApiFailure trivialParse "O-1"
      (.api "Order already captured") rfl).2.1 "Order already captured" rfl⟩

/-- C7: when the processor's create call returns status `s` with body string
`b`, and `b` parses to the JSON value `j`, the create-order handler responds
with status exactly `s` and body exactly `j`, unmodified. -/
theorem create_order_relays_processor_response {α J : Type}
    (processorCreateOrder : OrderCollect → Except ProcError ProcResponse)
    (jsonParse : String → Except ProcError J)
    (cart : α) (pref : Option String) (s : Nat) (b : String) (j : J)
    (hp : processorCreateOrder (buildCollect cart pref)
          = .ok { body := b, statusCode := s })
    (hj : jsonParse b = .ok j) :
    handleCreateOrder processorCreateOrder jsonParse cart pref =
      { status := s, body := .json j } := by
  simp only [handleCreateOrder, createOrder, hp, hj, bind, Except.bind,
    pure, Except.pure]

/-- A processor stub that returns status 201 with a fixed body string. -/
def okProcessorCreate : OrderCollect → Except ProcError ProcResponse :=
  fun _ => .ok { body := "id-O-1", statusCode := 201 }

/-- Witness for C7 (Scenario C shape): a processor returning 201 with a body
that parses to itself is relayed verbatim. -/
theorem create_order_relays_processor_response_witness :
    handleCreateOrder okProcessorCreate trivialParse ([] : List String)
        (some "RETAIN_CONTACT_INFO") =
      { status := 201, body := .json "id-O-1" } :=
  create_order_relays_processor_response okProcessorCreate trivialParse
    ([] : List String) (some "RETAIN_CONTACT_INFO") 201 "id-O-1" "id-O-1" rfl rfl

/-- C8: the built OrderRequest does not depend on the cart — any two carts
(of any types) with the same contactPreference yield identical payloads — and
every payload carries exactly the one fixed T-Shirt line item. -/
theorem payload_independent_of_cart {α β : Type} (c1 : α) (c2 : β)
    (pref : Option String) :
    buildCollect c1 pref = buildCollect c2 pref ∧
    (buildCollect c1 pref).body.purchaseUnits.map (fun pu => pu.items) =
      [[{ name := "T-Shirt"
          unitAmount := { currencyCode := "GBP", value := "100.00" }
          quantity := "1"
          description := "Super Fresh Shirt"
          sku := "sku01" }]] :=
  ⟨rfl, rfl⟩

/-- C9: the payload builder is a total function — it raises no error for any
caller-supplied contactPreference, and every value, including unrecognized
strings, is forwarded unchanged into the payload's experience block. -/
theorem builder_total_forwards_any_pref {α : Type} (cart : α)
    (pref : Option String) :
    (buildCollect cart pref).body.paymentSource.paypal.experienceContext.contactPreference
      = pref :=
  rfl

/-- C10: when the `pref` field is absent (`undefined`, modelled as `none`),
the builder behaves like a contact-sharing mode: the shipping block is
included, and the undefined value itself is forwarded as the experience
block's contactPreference. -/
theorem absent_pref_includes_shipping {α : Type} (cart : α) :
    (buildCollect cart none).body.purchaseUnits.map
        (fun pu => pu.shipping.isSome) = [true] ∧
    (buildCollect cart none).body.paymentSource.paypal.experienceContext.contactPreference
      = none :=
  ⟨rfl, rfl⟩

end PayPalContactModule
